import Mathlib

/-!
Verification of the 0x swap-tutorial workflow in `src/src/exercise.ts`.

The repository ships two revisions of the same file, each exporting a
function `performSwapAsync` that runs one swap end to end:
balance check, allowance check with optional approval, quote fetch over
HTTP, transaction submission.  The first revision compares `BigNumber`
values with the numeric `gt` method and surfaces insufficient funds via
`alert` followed by a normal return; the second compares them with
JavaScript's native `>` and `<` (which coerce both operands to their
decimal string renderings and compare lexicographically) and throws an
`Error` instead.  Both are embedded below as pure functions over an
environment holding the results of the external chain and HTTP calls,
returning the ordered trace of externally visible actions together with
the outcome.
-/

namespace ZeroExWorkshop

/-- A nonnegative decimal number `mant / 10 ^ frac`.  This models the
human-readable token amounts (JavaScript `number` arguments such as `20.5`)
following the spec's Amount data model: a decimal with finitely many
fractional digits. -/
structure HumanAmount where
  mant : Nat
  frac : Nat
deriving DecidableEq, Repr

/-- Rational value denoted by a human-readable amount. -/
def HumanAmount.value (h : HumanAmount) : ℚ := (h.mant : ℚ) / 10 ^ h.frac

/-- Modelled from the spec: `Web3Wrapper.toBaseUnitAmount` lives in the
external `@0x/web3-wrapper` SDK, whose source is not part of this
repository.  The spec documents its contract as divisor-based scaling:
multiply by `10 ^ decimals` and truncate to an integer, dropping any
fractional digits beyond `decimals`. -/
def toBaseUnitAmount (unitAmount : HumanAmount) (decimals : Nat) : Nat :=
  unitAmount.mant * 10 ^ decimals / 10 ^ unitAmount.frac

/-- Modelled from the spec: section 4.2 defines
`baseUnitsToHuman(amountBase, decimals)` as exact division by
`10 ^ decimals`; no such helper appears under `src/`. -/
def baseUnitsToHuman (amountBase : Nat) (decimals : Nat) : ℚ :=
  (amountBase : ℚ) / 10 ^ decimals

/-- Truncation of a human-readable amount to at most `d` fractional digits:
excess digits are dropped, fewer digits are kept as they are. -/
def truncateToDecimals (h : HumanAmount) (d : Nat) : HumanAmount :=
  if h.frac ≤ d then h else ⟨h.mant / 10 ^ (h.frac - d), d⟩

/-- Decimal rendering of a natural number (`BigNumber.toString()`; the
`@0x/utils` configuration sets `EXPONENTIAL_AT` high enough that rendering
is always plain decimal, never exponential). -/
def bigNumberToString (n : Nat) : String := ⟨Nat.toDigits 10 n⟩

/-- Lexicographic comparison of character lists by code unit, exactly the
abstract relational comparison JavaScript applies once both operands have
been coerced to strings: a strict prefix is smaller, otherwise the first
differing character decides. -/
def jsCharsLt : List Char → List Char → Bool
  | [], [] => false
  | [], _ :: _ => true
  | _ :: _, [] => false
  | a :: as, b :: bs =>
    if a < b then true else if b < a then false else jsCharsLt as bs

/-- JavaScript string comparison `s < t` on the decimal renderings used by
the second revision's relational checks. -/
def jsStringLt (s t : String) : Bool := jsCharsLt s.data t.data

/-- Modelled from the spec: `EIGHT_GWEI_IN_WEI` is imported from
`src/misc.ts`, a repository file absent from the sources; the spec fixes
the quote gas price at 8 gwei expressed in wei. -/
def EIGHT_GWEI_IN_WEI : Nat := 8 * 10 ^ 9

/-- Deployed 0x contract addresses as returned by
`getContractAddressesForChainOrThrow`; the workflow only reads the ERC20
proxy address. -/
structure ContractAddresses where
  erc20Proxy : String
deriving DecidableEq, Repr

/-- Modelled from the spec: the address table for `ChainId.Kovan` lives in
the external `@0x/contract-addresses` package; its `erc20Proxy` entry is a
fixed string which we represent symbolically.  Both revisions compute this
constant once at module load. -/
def zeroExDeployedAddresses : ContractAddresses := ⟨"kovan-erc20-proxy"⟩

/-- The hard-coded quote endpoint URL, identical in both revisions. -/
def swapQuoteUrl : String := "https://kovan.api.0x.org/swap/v0/quote"

/-- First revision's token record: symbol and address (the contract wrapper
itself is a capability handle and carries no further data the workflow
reads). -/
structure ERC20Token where
  symbol : String
  address : String
deriving DecidableEq, Repr

/-- Second revision passes contract wrappers directly; the only field the
workflow reads from them is `address`. -/
structure ERC20TokenContract where
  address : String
deriving DecidableEq, Repr

/-- Modelled from the spec: the shape of `GetSwapQuoteResponse` is declared
in the absent `src/misc.ts`; the spec gives the response JSON as
`{ from, to, data, gas, gasPrice, value, orders: [...] }` with the orders
opaque to this component.  `sender` stands for the reserved word `from`. -/
structure GetSwapQuoteResponse where
  sender : String
  toAddr : String
  data : String
  gas : Nat
  gasPrice : Nat
  value : Nat
  orders : List String
deriving DecidableEq, Repr

/-- Modelled from the spec: `ZeroExSwapAPIParams` is declared in the absent
`src/misc.ts`.  The first revision populates only the first four query
parameters; the second also sends `slippagePercentage` and `gasPrice`,
hence the two optional fields. -/
structure ZeroExSwapAPIParams where
  buyToken : String
  sellToken : String
  sellAmount : String
  takerAddress : String
  slippagePercentage : Option String
  gasPrice : Option String
deriving DecidableEq, Repr

/-- Transaction descriptor handed to `sendTransactionAsync`. -/
structure TxData where
  sender : String
  toAddr : String
  data : String
  gas : Nat
  gasPrice : Nat
  value : Nat
deriving DecidableEq, Repr

/-- Both revisions build the transaction descriptor by copying the six
transaction fields of the quote response, ignoring `orders`. -/
def txDataOfResponse (r : GetSwapQuoteResponse) : TxData :=
  ⟨r.sender, r.toAddr, r.data, r.gas, r.gasPrice, r.value⟩

/-- Externally visible actions of one `performSwapAsync` invocation, in
program order: chain reads, the approval transaction, the quote HTTP GET,
console logging, and the final transaction submission. -/
inductive Action where
  | readDecimals
  | readBalance (owner : String)
  | readAllowance (owner : String) (spender : String)
  | approve (spender : String) (amount : Nat) (owner : String)
  | quoteGET (url : String) (params : ZeroExSwapAPIParams)
  | logTxData (tx : TxData)
  | logOrders (orders : List String)
  | sendTransaction (tx : TxData)
deriving DecidableEq, Repr

/-- Outcome of one invocation.  The first revision surfaces insufficient
funds by `alert` followed by a normal return; the second throws
`Error("Insufficient funds.")`.  `error e` is an exception raised by one of
the external calls and propagated unchanged. -/
inductive SwapResult (E : Type) where
  | completed
  | insufficientFundsAlert
  | insufficientFundsThrown
  | error (e : E)
deriving DecidableEq, Repr

/-- Results the external collaborators produce during one invocation: the
sell token's decimals, the caller's sell-token balance, the proxy
allowance, the approval transaction, the quote request, and the
transaction submission.  Each field is the (possibly failing) result of
the corresponding awaited call; within one invocation repeated reads of
the same datum (the decimals are read once per conversion) return the same
result. -/
structure ChainEnv (E : Type) where
  decimalsResult : Except E Nat
  balanceResult : Except E Nat
  allowanceResult : Except E Nat
  approveResult : Except E Unit
  quoteResult : Except E GetSwapQuoteResponse
  sendTxResult : Except E Unit

/-- Shared tail of both revisions: issue the quote GET, build the
transaction descriptor from the response, log it together with the orders,
and submit it through the Web3 client. -/
def quoteAndSubmit {E : Type} (env : ChainEnv E) (params : ZeroExSwapAPIParams)
    (t : List Action) : List Action × SwapResult E :=
  let t1 := t ++ [Action.quoteGET swapQuoteUrl params]
  match env.quoteResult with
  | Except.error e => (t1, SwapResult.error e)
  | Except.ok resp =>
    let txData := txDataOfResponse resp
    let t2 := t1 ++ [Action.logTxData txData, Action.logOrders resp.orders,
      Action.sendTransaction txData]
    match env.sendTxResult with
    | Except.error e => (t2, SwapResult.error e)
    | Except.ok _ => (t2, SwapResult.completed)

/-- First revision of `performSwapAsync` (exercise.ts lines 108-173):
numeric `gt` comparisons on `BigNumber` values, `alert` and return on
insufficient funds, four-parameter quote request. -/
def performSwapAsyncV1 {E : Type} (env : ChainEnv E)
    (buyToken sellToken : ERC20Token) (amountToSellInHuman : HumanAmount)
    (fromAddress : String) : List Action × SwapResult E :=
  let t0 := [Action.readDecimals]
  match env.decimalsResult with
  | Except.error e => (t0, SwapResult.error e)
  | Except.ok decimals =>
    let amountToSellInEthereum := toBaseUnitAmount amountToSellInHuman decimals
    let t1 := t0 ++ [Action.readBalance fromAddress]
    match env.balanceResult with
    | Except.error e => (t1, SwapResult.error e)
    | Except.ok userBalanceInEthererum =>
      if userBalanceInEthererum < amountToSellInEthereum then
        (t1, SwapResult.insufficientFundsAlert)
      else
        let t2 := t1 ++
          [Action.readAllowance fromAddress zeroExDeployedAddresses.erc20Proxy]
        match env.allowanceResult with
        | Except.error e => (t2, SwapResult.error e)
        | Except.ok allowanceInEthereum =>
          let params : ZeroExSwapAPIParams :=
            ⟨buyToken.address, sellToken.address,
              bigNumberToString amountToSellInEthereum, fromAddress, none, none⟩
          if allowanceInEthereum < amountToSellInEthereum then
            let t3 := t2 ++ [Action.readDecimals,
              Action.approve zeroExDeployedAddresses.erc20Proxy
                (toBaseUnitAmount ⟨300, 0⟩ decimals) fromAddress]
            match env.approveResult with
            | Except.error e => (t3, SwapResult.error e)
            | Except.ok _ => quoteAndSubmit env params t3
          else
            quoteAndSubmit env params t2

/-- Second revision of `performSwapAsync` (exercise.ts lines 237-293): the
relational checks apply JavaScript's native `>` and `<` to `BigNumber`
operands, coercing both sides to their decimal strings and comparing those
lexicographically; insufficient funds throws; the quote request carries
six parameters including the fixed slippage and gas price. -/
def performSwapAsyncV2 {E : Type} (env : ChainEnv E)
    (buyTokenWrapper sellTokenWrapper : ERC20TokenContract)
    (amountToSellUnitAmount : HumanAmount) (fromAddress : String) :
    List Action × SwapResult E :=
  let t0 := [Action.readDecimals]
  match env.decimalsResult with
  | Except.error e => (t0, SwapResult.error e)
  | Except.ok decimals =>
    let amountToSellInBaseUnits := toBaseUnitAmount amountToSellUnitAmount decimals
    let t1 := t0 ++ [Action.readBalance fromAddress]
    match env.balanceResult with
    | Except.error e => (t1, SwapResult.error e)
    | Except.ok sellTokenBalanceInBaseUnit =>
      if jsStringLt (bigNumberToString sellTokenBalanceInBaseUnit)
          (bigNumberToString amountToSellInBaseUnits) then
        (t1, SwapResult.insufficientFundsThrown)
      else
        let t2 := t1 ++
          [Action.readAllowance fromAddress zeroExDeployedAddresses.erc20Proxy]
        match env.allowanceResult with
        | Except.error e => (t2, SwapResult.error e)
        | Except.ok currentAllowanceInBaseUnitAmount =>
          let params : ZeroExSwapAPIParams :=
            ⟨buyTokenWrapper.address, sellTokenWrapper.address,
              bigNumberToString amountToSellInBaseUnits, fromAddress,
              some "0.01", some (bigNumberToString EIGHT_GWEI_IN_WEI)⟩
          if jsStringLt (bigNumberToString currentAllowanceInBaseUnitAmount)
              (bigNumberToString amountToSellInBaseUnits) then
            let t3 := t2 ++ [Action.readDecimals,
              Action.approve zeroExDeployedAddresses.erc20Proxy
                (toBaseUnitAmount ⟨300, 0⟩ decimals) fromAddress]
            match env.approveResult with
            | Except.error e => (t3, SwapResult.error e)
            | Except.ok _ => quoteAndSubmit env params t3
          else
            quoteAndSubmit env params t2

/-- A concrete well-formed quote response used in scenario instances. -/
def sampleQuoteResponse : GetSwapQuoteResponse :=
  ⟨"0xAPIFROM", "0xAPITO", "0xCALLDATA", 210000, 8000000000, 0, []⟩

lemma toBaseUnitAmount_eq_floor (h : HumanAmount) (d : Nat) :
    toBaseUnitAmount h d = ⌊h.value * 10 ^ d⌋₊ := by
  have hv : h.value * 10 ^ d =
      ((h.mant * 10 ^ d : ℕ) : ℚ) / ((10 ^ h.frac : ℕ) : ℚ) := by
    rw [HumanAmount.value]; push_cast; ring
  rw [hv, Nat.floor_div_nat, Nat.floor_natCast]
  rfl

lemma toBaseUnitAmount_of_le (h : HumanAmount) (d : Nat) (hle : h.frac ≤ d) :
    toBaseUnitAmount h d = h.mant * 10 ^ (d - h.frac) := by
  have hsplit : h.mant * 10 ^ d = h.mant * 10 ^ (d - h.frac) * 10 ^ h.frac := by
    rw [mul_assoc, ← pow_add]
    congr 2
    omega
  rw [toBaseUnitAmount, hsplit, Nat.mul_div_cancel]
  exact Nat.pos_pow_of_pos _ (by norm_num)

lemma toBaseUnitAmount_of_gt (h : HumanAmount) (d : Nat) (hgt : d < h.frac) :
    toBaseUnitAmount h d = h.mant / 10 ^ (h.frac - d) := by
  have hsplit : (10 : ℕ) ^ h.frac = 10 ^ (h.frac - d) * 10 ^ d := by
    rw [← pow_add]
    congr 1
    omega
  rw [toBaseUnitAmount, hsplit, Nat.mul_div_mul_right]
  exact Nat.pos_pow_of_pos _ (by norm_num)

lemma round_trip_of_le (h : HumanAmount) (d : Nat) (hle : h.frac ≤ d) :
    baseUnitsToHuman (toBaseUnitAmount h d) d = h.value := by
  rw [toBaseUnitAmount_of_le h d hle, baseUnitsToHuman, HumanAmount.value]
  push_cast
  rw [div_eq_div_iff (by positivity) (by positivity), mul_assoc, ← pow_add]
  congr 2
  omega

/-- C3: the human-to-base-unit conversion (performed by
`convertValueFromHumanToEthereum` through `Web3Wrapper.toBaseUnitAmount`)
returns the integer obtained by multiplying the human-readable amount by
`10 ^ decimals` and truncating toward zero.  When the amount has at most
`decimals` fractional digits the conversion is exact scaling; when it has
more, the excess digits are dropped by truncating division — no rounding
and no error. -/
theorem toBaseUnitAmount_spec (h : HumanAmount) (d : Nat) :
    toBaseUnitAmount h d = ⌊h.value * 10 ^ d⌋₊ ∧
    (h.frac ≤ d → toBaseUnitAmount h d = h.mant * 10 ^ (d - h.frac)) ∧
    (d < h.frac → toBaseUnitAmount h d = h.mant / 10 ^ (h.frac - d)) :=
  ⟨toBaseUnitAmount_eq_floor h d, toBaseUnitAmount_of_le h d,
    toBaseUnitAmount_of_gt h d⟩

/-- Witness for C3: converting 20.5 with 18 decimals scales exactly, and
converting 20.545 with 2 decimals truncates the third fractional digit. -/
theorem toBaseUnitAmount_spec_witness :
    toBaseUnitAmount ⟨205, 1⟩ 18 = 20500000000000000000 ∧
    toBaseUnitAmount ⟨20545, 3⟩ 2 = 2054 :=
  ⟨((toBaseUnitAmount_spec ⟨205, 1⟩ 18).2.1 (by decide)).trans (by norm_num),
   ((toBaseUnitAmount_spec ⟨20545, 3⟩ 2).2.2 (by decide)).trans (by norm_num)⟩

/-- C5: converting a human-readable amount to base units and back returns
the amount exactly when it has at most `decimals` fractional digits; when
it has more, the round trip returns the amount with the excess fractional
digits truncated. -/
theorem round_trip_spec (h : HumanAmount) (d : Nat) :
    (h.frac ≤ d → baseUnitsToHuman (toBaseUnitAmount h d) d = h.value) ∧
    baseUnitsToHuman (toBaseUnitAmount h d) d = (truncateToDecimals h d).value := by
  constructor
  · exact round_trip_of_le h d
  · by_cases hle : h.frac ≤ d
    · rw [round_trip_of_le h d hle, truncateToDecimals, if_pos hle]
    · rw [truncateToDecimals, if_neg hle,
        toBaseUnitAmount_of_gt h d (by omega)]
      rfl

/-- Witness for C5: the 20.5-with-18-decimals round trip is exact, and the
20.545-with-2-decimals round trip returns 20.54. -/
theorem round_trip_spec_witness :
    baseUnitsToHuman (toBaseUnitAmount ⟨205, 1⟩ 18) 18 = HumanAmount.value ⟨205, 1⟩ ∧
    baseUnitsToHuman (toBaseUnitAmount ⟨20545, 3⟩ 2) 2 = HumanAmount.value ⟨2054, 2⟩ :=
  ⟨(round_trip_spec ⟨205, 1⟩ 18).1 (by decide),
   ((round_trip_spec ⟨20545, 3⟩ 2).2).trans
     (by rw [show truncateToDecimals ⟨20545, 3⟩ 2 = ⟨2054, 2⟩ from by decide])⟩

/-- C1 (failing input): with sell-token decimals 0, requested human amount
10, an on-chain balance of 9 base units, an allowance of 900 and succeeding
collaborators, the balance is strictly below the requested sell amount in
base units, yet the second revision completes the whole workflow — it
submits the transaction instead of failing with the insufficient-funds
error — because the native `>` compares the decimal renderings "10" and
"9" lexicographically and "10" is not greater than "9" as a string. -/
theorem balance_check_divergence :
    (performSwapAsyncV2 (E := Unit)
        ⟨.ok 0, .ok 9, .ok 900, .ok (), .ok sampleQuoteResponse, .ok ()⟩
        ⟨"0xBUY"⟩ ⟨"0xSELL"⟩ ⟨10, 0⟩ "0xME").snd = SwapResult.completed ∧
    Action.sendTransaction (txDataOfResponse sampleQuoteResponse) ∈
      (performSwapAsyncV2 (E := Unit)
        ⟨.ok 0, .ok 9, .ok 900, .ok (), .ok sampleQuoteResponse, .ok ()⟩
        ⟨"0xBUY"⟩ ⟨"0xSELL"⟩ ⟨10, 0⟩ "0xME").fst ∧
    (9 : Nat) < toBaseUnitAmount ⟨10, 0⟩ 0 := by
  decide

/-- C2 (failing input): with sell-token decimals 0, requested human amount
2, balance 30 and allowance 10, the allowance (10) is at least the required
sell amount in base units (2), yet the second revision submits an approval
transaction, because the native `<` compares the decimal renderings "10"
and "2" lexicographically and "10" is smaller than "2" as a string. -/
theorem allowance_check_divergence :
    Action.approve zeroExDeployedAddresses.erc20Proxy 300 "0xME" ∈
      (performSwapAsyncV2 (E := Unit)
        ⟨.ok 0, .ok 30, .ok 10, .ok (), .ok sampleQuoteResponse, .ok ()⟩
        ⟨"0xBUY"⟩ ⟨"0xSELL"⟩ ⟨2, 0⟩ "0xME").fst ∧
    toBaseUnitAmount ⟨2, 0⟩ 0 ≤ 10 := by
  decide

/-- C7: scenario instance on the first revision — sell token with 18
decimals, requested human amount 20.5, balance 10^22 base units, allowance
0: the amount converts to 20500000000000000000 base units, an approval for
300 * 10^18 base units is submitted, and the quote request carries
`sellAmount = "20500000000000000000"`, after which the transaction built
from the quote response is submitted. -/
theorem scenario_twenty_point_five :
    performSwapAsyncV1 (E := Unit)
        ⟨.ok 18, .ok (10 ^ 22), .ok 0, .ok (), .ok sampleQuoteResponse, .ok ()⟩
        ⟨"WETH", "0xBUY"⟩ ⟨"DAI", "0xSELL"⟩ ⟨205, 1⟩ "0xME" =
      ([Action.readDecimals,
        Action.readBalance "0xME",
        Action.readAllowance "0xME" zeroExDeployedAddresses.erc20Proxy,
        Action.readDecimals,
        Action.approve zeroExDeployedAddresses.erc20Proxy (300 * 10 ^ 18) "0xME",
        Action.quoteGET swapQuoteUrl
          ⟨"0xBUY", "0xSELL", "20500000000000000000", "0xME", none, none⟩,
        Action.logTxData (txDataOfResponse sampleQuoteResponse),
        Action.logOrders [],
        Action.sendTransaction (txDataOfResponse sampleQuoteResponse)],
       SwapResult.completed) ∧
    toBaseUnitAmount ⟨205, 1⟩ 18 = 20500000000000000000 := by
  decide

/-- C4 counterexample: the first revision issues a quote request whose
query parameters omit the fixed slippage tolerance and gas price — at the
scenario input its GET carries the four-field parameter record with
`slippagePercentage` and `gasPrice` absent, refuting the claim that every
quote request carries those six parameters. -/
theorem quote_params_missing_slippage :
    Action.quoteGET swapQuoteUrl
        ⟨"0xBUY", "0xSELL", "20500000000000000000", "0xME", none, none⟩ ∈
      (performSwapAsyncV1 (E := Unit)
        ⟨.ok 18, .ok (10 ^ 22), .ok 0, .ok (), .ok sampleQuoteResponse, .ok ()⟩
        ⟨"WETH", "0xBUY"⟩ ⟨"DAI", "0xSELL"⟩ ⟨205, 1⟩ "0xME").fst ∧
    ZeroExSwapAPIParams.slippagePercentage
        ⟨"0xBUY", "0xSELL", "20500000000000000000", "0xME", none, none⟩ = none ∧
    ZeroExSwapAPIParams.gasPrice
        ⟨"0xBUY", "0xSELL", "20500000000000000000", "0xME", none, none⟩ = none := by
  decide



lemma quoteAndSubmit_snd_ne_alert {E : Type} (env : ChainEnv E)
    (p : ZeroExSwapAPIParams) (t : List Action) :
    (quoteAndSubmit env p t).snd ≠ SwapResult.insufficientFundsAlert := by
  unfold quoteAndSubmit
  rcases hq : env.quoteResult with e | r <;>
    rcases hs : env.sendTxResult with e2 | u <;> simp

lemma mem_quoteAndSubmit_fst {E : Type} (a : Action) (env : ChainEnv E)
    (p : ZeroExSwapAPIParams) (t : List Action) :
    a ∈ (quoteAndSubmit env p t).fst ↔
      a ∈ t ∨ a = Action.quoteGET swapQuoteUrl p ∨
      ∃ r, env.quoteResult = Except.ok r ∧
        (a = Action.logTxData (txDataOfResponse r) ∨ a = Action.logOrders r.orders ∨
          a = Action.sendTransaction (txDataOfResponse r)) := by
  unfold quoteAndSubmit
  rcases hq : env.quoteResult with e | r
  · simp [hq]
  · rcases hs : env.sendTxResult with e2 | u <;> simp [hq]



/-- Property of an action of using only the fixed constants: any allowance
read or approval names the 0x ERC20 proxy as spender, and any quote request
targets the hard-coded Kovan endpoint. -/
def usesFixedEndpoints : Action → Prop
  | Action.readAllowance _ s => s = zeroExDeployedAddresses.erc20Proxy
  | Action.approve s _ _ => s = zeroExDeployedAddresses.erc20Proxy
  | Action.quoteGET u _ => u = swapQuoteUrl
  | _ => True

lemma quoteAndSubmit_fixed {E : Type} (env : ChainEnv E)
    (p : ZeroExSwapAPIParams) (t : List Action)
    (ht : ∀ a ∈ t, usesFixedEndpoints a) :
    ∀ a ∈ (quoteAndSubmit env p t).fst, usesFixedEndpoints a := by
  intro a ha
  rw [mem_quoteAndSubmit_fst] at ha
  rcases ha with ha | ha | ⟨r, hq, ha | ha | ha⟩
  · exact ht a ha
  all_goals subst ha; simp [usesFixedEndpoints]

lemma v1_fixed {E : Type} (env : ChainEnv E) (bt st : ERC20Token)
    (h : HumanAmount) (f : String) :
    ∀ a ∈ (performSwapAsyncV1 env bt st h f).fst, usesFixedEndpoints a := by
  obtain ⟨dr, br, alr, apr, qr, sr⟩ := env
  rcases dr with e | d
  · simp [performSwapAsyncV1, usesFixedEndpoints]
  · rcases br with e | b
    · simp [performSwapAsyncV1, usesFixedEndpoints]
    · simp only [performSwapAsyncV1]
      by_cases hlt : b < toBaseUnitAmount h d
      · simp [hlt, usesFixedEndpoints]
      · simp only [if_neg hlt]
        rcases alr with e | al
        · simp [usesFixedEndpoints]
        · by_cases hal2 : al < toBaseUnitAmount h d
          · simp only [if_pos hal2]
            rcases apr with e | u
            · simp [usesFixedEndpoints]
            · exact quoteAndSubmit_fixed _ _ _ (by simp [usesFixedEndpoints])
          · simp only [if_neg hal2]
            exact quoteAndSubmit_fixed _ _ _ (by simp [usesFixedEndpoints])

lemma v2_fixed {E : Type} (env : ChainEnv E) (bw sw : ERC20TokenContract)
    (h : HumanAmount) (f : String) :
    ∀ a ∈ (performSwapAsyncV2 env bw sw h f).fst, usesFixedEndpoints a := by
  obtain ⟨dr, br, alr, apr, qr, sr⟩ := env
  rcases dr with e | d
  · simp [performSwapAsyncV2, usesFixedEndpoints]
  · rcases br with e | b
    · simp [performSwapAsyncV2, usesFixedEndpoints]
    · simp only [performSwapAsyncV2]
      by_cases hlt : jsStringLt (bigNumberToString b)
          (bigNumberToString (toBaseUnitAmount h d)) = true
      · simp [hlt, usesFixedEndpoints]
      · simp only [Bool.not_eq_true] at hlt
        simp only [hlt, Bool.false_eq_true, if_false]
        rcases alr with e | al
        · simp [usesFixedEndpoints]
        · by_cases hal2 : jsStringLt (bigNumberToString al)
              (bigNumberToString (toBaseUnitAmount h d)) = true
          · simp only [hal2, if_true]
            rcases apr with e | u
            · simp [usesFixedEndpoints]
            · exact quoteAndSubmit_fixed _ _ _ (by simp [usesFixedEndpoints])
          · simp only [Bool.not_eq_true] at hal2
            simp only [hal2, Bool.false_eq_true, if_false]
            exact quoteAndSubmit_fixed _ _ _ (by simp [usesFixedEndpoints])


lemma v1_insufficient_iff {E : Type} (env : ChainEnv E) (bt st : ERC20Token)
    (h : HumanAmount) (f : String) (d b : Nat)
    (hd : env.decimalsResult = Except.ok d) (hb : env.balanceResult = Except.ok b) :
    (performSwapAsyncV1 env bt st h f).snd = SwapResult.insufficientFundsAlert ↔
      b < toBaseUnitAmount h d := by
  obtain ⟨dr, br, alr, apr, qr, sr⟩ := env
  simp only at hd hb
  subst hd hb
  by_cases hlt : b < toBaseUnitAmount h d
  · simp [performSwapAsyncV1, hlt]
  · simp only [performSwapAsyncV1, if_neg hlt]
    rcases alr with e | al
  -- allowance read fails: result is an error, not the alert
    · simp [hlt]
    · by_cases hal2 : al < toBaseUnitAmount h d
      · simp only [if_pos hal2]
        rcases apr with e | u
        · simp [hlt]
        · simp [hlt, quoteAndSubmit_snd_ne_alert]
      · simp only [if_neg hal2]
        simp [hlt, quoteAndSubmit_snd_ne_alert]

lemma v1_approve_mem_iff {E : Type} (env : ChainEnv E) (bt st : ERC20Token)
    (h : HumanAmount) (f : String) (d b al : Nat)
    (hd : env.decimalsResult = Except.ok d) (hb : env.balanceResult = Except.ok b)
    (hal : env.allowanceResult = Except.ok al) (hpass : ¬ b < toBaseUnitAmount h d) :
    (Action.approve zeroExDeployedAddresses.erc20Proxy
        (toBaseUnitAmount ⟨300, 0⟩ d) f ∈ (performSwapAsyncV1 env bt st h f).fst ↔
      al < toBaseUnitAmount h d) := by
  obtain ⟨dr, br, alr, apr, qr, sr⟩ := env
  simp only at hd hb hal
  subst hd hb hal
  simp only [performSwapAsyncV1, if_neg hpass]
  by_cases hal2 : al < toBaseUnitAmount h d
  · simp only [if_pos hal2]
    rcases apr with e | u
    · simp [hal2]
    · simp [hal2, mem_quoteAndSubmit_fst]
  · simp only [if_neg hal2]
    simp [hal2, mem_quoteAndSubmit_fst]




lemma quoteAndSubmit_snd_ok {E : Type} (env : ChainEnv E)
    (p : ZeroExSwapAPIParams) (t : List Action) (r : GetSwapQuoteResponse)
    (hq : env.quoteResult = Except.ok r) (hs : env.sendTxResult = Except.ok ()) :
    (quoteAndSubmit env p t).snd = SwapResult.completed := by
  simp [quoteAndSubmit, hq, hs]

lemma v1_approve_error_eq {E : Type} (env : ChainEnv E) (bt st : ERC20Token)
    (h : HumanAmount) (f : String) (d b al : Nat) (e : E)
    (hd : env.decimalsResult = Except.ok d) (hb : env.balanceResult = Except.ok b)
    (hal : env.allowanceResult = Except.ok al)
    (hpass : ¬ b < toBaseUnitAmount h d) (hneed : al < toBaseUnitAmount h d)
    (hap : env.approveResult = Except.error e) :
    performSwapAsyncV1 env bt st h f =
      ([Action.readDecimals, Action.readBalance f,
        Action.readAllowance f zeroExDeployedAddresses.erc20Proxy,
        Action.readDecimals,
        Action.approve zeroExDeployedAddresses.erc20Proxy
          (toBaseUnitAmount ⟨300, 0⟩ d) f],
       SwapResult.error e) := by
  obtain ⟨dr, br, alr, apr, qr, sr⟩ := env
  simp only at hd hb hal hap
  subst hd hb hal hap
  simp [performSwapAsyncV1, if_neg hpass, if_pos hneed]

lemma v2_quote_error_eq {E : Type} (env : ChainEnv E)
    (bw sw : ERC20TokenContract) (h : HumanAmount) (f : String)
    (d b al : Nat) (e : E)
    (hd : env.decimalsResult = Except.ok d) (hb : env.balanceResult = Except.ok b)
    (hal : env.allowanceResult = Except.ok al)
    (hpass : jsStringLt (bigNumberToString b)
      (bigNumberToString (toBaseUnitAmount h d)) = false)
    (hneed : jsStringLt (bigNumberToString al)
      (bigNumberToString (toBaseUnitAmount h d)) = true)
    (hap : env.approveResult = Except.ok ())
    (hq : env.quoteResult = Except.error e) :
    performSwapAsyncV2 env bw sw h f =
      ([Action.readDecimals, Action.readBalance f,
        Action.readAllowance f zeroExDeployedAddresses.erc20Proxy,
        Action.readDecimals,
        Action.approve zeroExDeployedAddresses.erc20Proxy
          (toBaseUnitAmount ⟨300, 0⟩ d) f,
        Action.quoteGET swapQuoteUrl
          ⟨bw.address, sw.address, bigNumberToString (toBaseUnitAmount h d), f,
            some "0.01", some (bigNumberToString EIGHT_GWEI_IN_WEI)⟩],
       SwapResult.error e) := by
  obtain ⟨dr, br, alr, apr, qr, sr⟩ := env
  simp only at hd hb hal hap hq
  subst hd hb hal hap hq
  simp [performSwapAsyncV2, quoteAndSubmit, hpass, hneed]

lemma v2_send_error_eq {E : Type} (env : ChainEnv E)
    (bw sw : ERC20TokenContract) (h : HumanAmount) (f : String)
    (d b al : Nat) (r : GetSwapQuoteResponse) (e : E)
    (hd : env.decimalsResult = Except.ok d) (hb : env.balanceResult = Except.ok b)
    (hal : env.allowanceResult = Except.ok al)
    (hpass : jsStringLt (bigNumberToString b)
      (bigNumberToString (toBaseUnitAmount h d)) = false)
    (hnoneed : jsStringLt (bigNumberToString al)
      (bigNumberToString (toBaseUnitAmount h d)) = false)
    (hq : env.quoteResult = Except.ok r)
    (hs : env.sendTxResult = Except.error e) :
    performSwapAsyncV2 env bw sw h f =
      ([Action.readDecimals, Action.readBalance f,
        Action.readAllowance f zeroExDeployedAddresses.erc20Proxy,
        Action.quoteGET swapQuoteUrl
          ⟨bw.address, sw.address, bigNumberToString (toBaseUnitAmount h d), f,
            some "0.01", some (bigNumberToString EIGHT_GWEI_IN_WEI)⟩,
        Action.logTxData (txDataOfResponse r), Action.logOrders r.orders,
        Action.sendTransaction (txDataOfResponse r)],
       SwapResult.error e) := by
  obtain ⟨dr, br, alr, apr, qr, sr⟩ := env
  simp only at hd hb hal hq hs
  subst hd hb hal hq hs
  simp [performSwapAsyncV2, quoteAndSubmit, hpass, hnoneed]

lemma quoteAndSubmit_snd_orders {E : Type} (env : ChainEnv E)
    (p : ZeroExSwapAPIParams) (t : List Action) (l : List String) :
    (quoteAndSubmit
        { env with quoteResult :=
            Except.map (fun r => { r with orders := l }) env.quoteResult }
        p t).snd = (quoteAndSubmit env p t).snd := by
  rcases hq : env.quoteResult with e | r <;>
    rcases hs : env.sendTxResult with e2 | u <;>
      simp [quoteAndSubmit, Except.map, hq, hs]

lemma v2_snd_orders {E : Type} (env : ChainEnv E) (bw sw : ERC20TokenContract)
    (h : HumanAmount) (f : String) (l : List String) :
    (performSwapAsyncV2
        { env with quoteResult :=
            Except.map (fun r => { r with orders := l }) env.quoteResult }
        bw sw h f).snd = (performSwapAsyncV2 env bw sw h f).snd := by
  obtain ⟨dr, br, alr, apr, qr, sr⟩ := env
  rcases dr with e | d
  · rfl
  · rcases br with e | b
    · rfl
    · simp only [performSwapAsyncV2]
      by_cases hlt : jsStringLt (bigNumberToString b)
          (bigNumberToString (toBaseUnitAmount h d)) = true
      · simp [hlt]
      · simp only [Bool.not_eq_true] at hlt
        simp only [hlt, Bool.false_eq_true, if_false]
        rcases alr with e | al
        · rfl
        · by_cases hal2 : jsStringLt (bigNumberToString al)
              (bigNumberToString (toBaseUnitAmount h d)) = true
          · simp only [hal2, if_true]
            rcases apr with e | u
            · rfl
            · exact quoteAndSubmit_snd_orders ⟨Except.ok d, Except.ok b,
                Except.ok al, Except.ok u, qr, sr⟩ _ _ l
          · simp only [Bool.not_eq_true] at hal2
            simp only [hal2, Bool.false_eq_true, if_false]
            exact quoteAndSubmit_snd_orders ⟨Except.ok d, Except.ok b,
              Except.ok al, apr, qr, sr⟩ _ _ l

lemma v1_snd_orders {E : Type} (env : ChainEnv E) (bt st : ERC20Token)
    (h : HumanAmount) (f : String) (l : List String) :
    (performSwapAsyncV1
        { env with quoteResult :=
            Except.map (fun r => { r with orders := l }) env.quoteResult }
        bt st h f).snd = (performSwapAsyncV1 env bt st h f).snd := by
  obtain ⟨dr, br, alr, apr, qr, sr⟩ := env
  rcases dr with e | d
  · rfl
  · rcases br with e | b
    · rfl
    · simp only [performSwapAsyncV1]
      by_cases hlt : b < toBaseUnitAmount h d
      · simp [hlt]
      · simp only [if_neg hlt]
        rcases alr with e | al
        · rfl
        · by_cases hal2 : al < toBaseUnitAmount h d
          · simp only [if_pos hal2]
            rcases apr with e | u
            · rfl
            · exact quoteAndSubmit_snd_orders ⟨Except.ok d, Except.ok b,
                Except.ok al, Except.ok u, qr, sr⟩ _ _ l
          · simp only [if_neg hal2]
            exact quoteAndSubmit_snd_orders ⟨Except.ok d, Except.ok b,
              Except.ok al, apr, qr, sr⟩ _ _ l

lemma v2_send_mem {E : Type} (env : ChainEnv E) (bw sw : ERC20TokenContract)
    (h : HumanAmount) (f : String) (d b al : Nat) (r : GetSwapQuoteResponse)
    (hd : env.decimalsResult = Except.ok d) (hb : env.balanceResult = Except.ok b)
    (hal : env.allowanceResult = Except.ok al)
    (hpass : jsStringLt (bigNumberToString b)
      (bigNumberToString (toBaseUnitAmount h d)) = false)
    (hap : env.approveResult = Except.ok ())
    (hq : env.quoteResult = Except.ok r) :
    Action.sendTransaction (txDataOfResponse r) ∈
        (performSwapAsyncV2 env bw sw h f).fst ∧
      (env.sendTxResult = Except.ok () →
        (performSwapAsyncV2 env bw sw h f).snd = SwapResult.completed) := by
  obtain ⟨dr, br, alr, apr, qr, sr⟩ := env
  simp only at hd hb hal hap hq
  subst hd hb hal hap hq
  simp only [performSwapAsyncV2, hpass, Bool.false_eq_true, if_false]
  by_cases hal2 : jsStringLt (bigNumberToString al)
      (bigNumberToString (toBaseUnitAmount h d)) = true
  · simp only [hal2, if_true]
    constructor
    · rw [mem_quoteAndSubmit_fst]
      exact Or.inr (Or.inr ⟨r, rfl, Or.inr (Or.inr rfl)⟩)
    · intro hs
      exact quoteAndSubmit_snd_ok _ _ _ r rfl hs
  · simp only [Bool.not_eq_true] at hal2
    simp only [hal2, Bool.false_eq_true, if_false]
    constructor
    · rw [mem_quoteAndSubmit_fst]
      exact Or.inr (Or.inr ⟨r, rfl, Or.inr (Or.inr rfl)⟩)
    · intro hs
      exact quoteAndSubmit_snd_ok _ _ _ r rfl hs

lemma v1_send_mem {E : Type} (env : ChainEnv E) (bt st : ERC20Token)
    (h : HumanAmount) (f : String) (d b al : Nat) (r : GetSwapQuoteResponse)
    (hd : env.decimalsResult = Except.ok d) (hb : env.balanceResult = Except.ok b)
    (hal : env.allowanceResult = Except.ok al)
    (hpass : ¬ b < toBaseUnitAmount h d)
    (hap : env.approveResult = Except.ok ())
    (hq : env.quoteResult = Except.ok r) :
    Action.sendTransaction (txDataOfResponse r) ∈
        (performSwapAsyncV1 env bt st h f).fst ∧
      (env.sendTxResult = Except.ok () →
        (performSwapAsyncV1 env bt st h f).snd = SwapResult.completed) := by
  obtain ⟨dr, br, alr, apr, qr, sr⟩ := env
  simp only at hd hb hal hap hq
  subst hd hb hal hap hq
  simp only [performSwapAsyncV1, if_neg hpass]
  by_cases hal2 : al < toBaseUnitAmount h d
  · simp only [if_pos hal2]
    constructor
    · rw [mem_quoteAndSubmit_fst]
      exact Or.inr (Or.inr ⟨r, rfl, Or.inr (Or.inr rfl)⟩)
    · intro hs
      exact quoteAndSubmit_snd_ok _ _ _ r rfl hs
  · simp only [if_neg hal2]
    constructor
    · rw [mem_quoteAndSubmit_fst]
      exact Or.inr (Or.inr ⟨r, rfl, Or.inr (Or.inr rfl)⟩)
    · intro hs
      exact quoteAndSubmit_snd_ok _ _ _ r rfl hs




lemma v1_quoteGET_mem {E : Type} (env : ChainEnv E) (bt st : ERC20Token)
    (h : HumanAmount) (f : String) (d : Nat) (u : String)
    (p : ZeroExSwapAPIParams) (hd : env.decimalsResult = Except.ok d)
    (hmem : Action.quoteGET u p ∈ (performSwapAsyncV1 env bt st h f).fst) :
    u = swapQuoteUrl ∧
      p = ⟨bt.address, st.address,
        bigNumberToString (toBaseUnitAmount h d), f, none, none⟩ := by
  obtain ⟨dr, br, alr, apr, qr, sr⟩ := env
  simp only at hd
  subst hd
  rcases br with e | b
  · simp [performSwapAsyncV1] at hmem
  · simp only [performSwapAsyncV1] at hmem
    by_cases hlt : b < toBaseUnitAmount h d
    · simp [hlt] at hmem
    · simp only [if_neg hlt] at hmem
      rcases alr with e | al
      · simp at hmem
      · by_cases hal2 : al < toBaseUnitAmount h d
        · simp only [if_pos hal2] at hmem
          rcases apr with e | uu
          · simp at hmem
          · simp [mem_quoteAndSubmit_fst] at hmem
            exact ⟨hmem.1, hmem.2⟩
        · simp only [if_neg hal2] at hmem
          simp [mem_quoteAndSubmit_fst] at hmem
          exact ⟨hmem.1, hmem.2⟩

lemma v2_quoteGET_mem {E : Type} (env : ChainEnv E)
    (bw sw : ERC20TokenContract) (h : HumanAmount) (f : String) (d : Nat)
    (u : String) (p : ZeroExSwapAPIParams)
    (hd : env.decimalsResult = Except.ok d)
    (hmem : Action.quoteGET u p ∈ (performSwapAsyncV2 env bw sw h f).fst) :
    u = swapQuoteUrl ∧
      p = ⟨bw.address, sw.address,
        bigNumberToString (toBaseUnitAmount h d), f,
        some "0.01", some (bigNumberToString EIGHT_GWEI_IN_WEI)⟩ := by
  obtain ⟨dr, br, alr, apr, qr, sr⟩ := env
  simp only at hd
  subst hd
  rcases br with e | b
  · simp [performSwapAsyncV2] at hmem
  · simp only [performSwapAsyncV2] at hmem
    by_cases hlt : jsStringLt (bigNumberToString b)
        (bigNumberToString (toBaseUnitAmount h d)) = true
    · simp [hlt] at hmem
    · simp only [Bool.not_eq_true] at hlt
      simp only [hlt, Bool.false_eq_true, if_false] at hmem
      rcases alr with e | al
      · simp at hmem
      · by_cases hal2 : jsStringLt (bigNumberToString al)
            (bigNumberToString (toBaseUnitAmount h d)) = true
        · simp only [hal2, if_true] at hmem
          rcases apr with e | uu
          · simp at hmem
          · simp [mem_quoteAndSubmit_fst] at hmem
            exact ⟨hmem.1, hmem.2⟩
        · simp only [Bool.not_eq_true] at hal2
          simp only [hal2, Bool.false_eq_true, if_false] at hmem
          simp [mem_quoteAndSubmit_fst] at hmem
          exact ⟨hmem.1, hmem.2⟩




/-- C10: every invocation of either revision uses the same fixed constants
regardless of its arguments and of the injected provider: each allowance
read and each approval names the 0x ERC20 proxy for the Kovan chain as the
spender, and every quote request targets the hard-coded Kovan swap-quote
endpoint URL. -/
theorem fixed_constants_invariant (E : Type) (env : ChainEnv E)
    (bt st : ERC20Token) (bw sw : ERC20TokenContract) (h : HumanAmount)
    (f : String) (a : Action) :
    (a ∈ (performSwapAsyncV1 env bt st h f).fst → usesFixedEndpoints a) ∧
    (a ∈ (performSwapAsyncV2 env bw sw h f).fst → usesFixedEndpoints a) :=
  ⟨fun hm => v1_fixed env bt st h f a hm, fun hm => v2_fixed env bw sw h f a hm⟩

/-- Witness for C10: at the scenario invocation, the allowance-read action
in the trace names the ERC20 proxy as spender. -/
theorem fixed_constants_invariant_witness :
    usesFixedEndpoints
      (Action.readAllowance "0xME" zeroExDeployedAddresses.erc20Proxy) :=
  (fixed_constants_invariant Unit
      ⟨.ok 18, .ok (10 ^ 22), .ok 0, .ok (), .ok sampleQuoteResponse, .ok ()⟩
      ⟨"WETH", "0xBUY"⟩ ⟨"DAI", "0xSELL"⟩ ⟨"0xBUY"⟩ ⟨"0xSELL"⟩ ⟨205, 1⟩ "0xME"
      (Action.readAllowance "0xME" zeroExDeployedAddresses.erc20Proxy)).1
    (by decide)

/-- C9: the second revision's relational checks compare the decimal string
renderings of their `BigNumber` operands rather than their numeric values:
with sell amount 2 and balance 10 (balance numerically above the amount)
the workflow still throws insufficient funds, because "10" < "2" as
strings.  The first revision's `gt`-based checks agree with numeric order
on all inputs: it raises the insufficient-funds alert exactly when the
balance is numerically below the converted amount, and submits an approval
exactly when the allowance is numerically below it. -/
theorem native_comparison_divergence :
    ((performSwapAsyncV2 (E := Unit)
        ⟨.ok 0, .ok 10, .ok 0, .ok (), .ok sampleQuoteResponse, .ok ()⟩
        ⟨"0xBUY"⟩ ⟨"0xSELL"⟩ ⟨2, 0⟩ "0xME").snd =
          SwapResult.insufficientFundsThrown ∧
      toBaseUnitAmount ⟨2, 0⟩ 0 ≤ 10) ∧
    (∀ (E : Type) (env : ChainEnv E) (bt st : ERC20Token) (h : HumanAmount)
        (f : String) (d b : Nat),
      env.decimalsResult = Except.ok d → env.balanceResult = Except.ok b →
        ((performSwapAsyncV1 env bt st h f).snd =
            SwapResult.insufficientFundsAlert ↔
          b < toBaseUnitAmount h d)) ∧
    (∀ (E : Type) (env : ChainEnv E) (bt st : ERC20Token) (h : HumanAmount)
        (f : String) (d b al : Nat),
      env.decimalsResult = Except.ok d → env.balanceResult = Except.ok b →
        env.allowanceResult = Except.ok al → ¬ b < toBaseUnitAmount h d →
          (Action.approve zeroExDeployedAddresses.erc20Proxy
              (toBaseUnitAmount ⟨300, 0⟩ d) f ∈
                (performSwapAsyncV1 env bt st h f).fst ↔
            al < toBaseUnitAmount h d)) :=
  ⟨⟨by decide, by decide⟩,
   fun E env bt st h f d b hd hb => v1_insufficient_iff env bt st h f d b hd hb,
   fun E env bt st h f d b al hd hb hal hp =>
     v1_approve_mem_iff env bt st h f d b al hd hb hal hp⟩

/-- Witness for C9: the first revision at the spec's 6-decimals scenario
(human amount 5, balance 4000000 base units) alerts exactly because the
balance is numerically below 5000000 base units. -/
theorem native_comparison_divergence_witness :
    ((performSwapAsyncV1 (E := Unit)
        ⟨.ok 6, .ok 4000000, .ok 0, .ok (), .ok sampleQuoteResponse, .ok ()⟩
        ⟨"DAI", "0xBUY"⟩ ⟨"USDC", "0xSELL"⟩ ⟨5, 0⟩ "0xME").snd =
          SwapResult.insufficientFundsAlert ↔
      4000000 < toBaseUnitAmount ⟨5, 0⟩ 6) :=
  native_comparison_divergence.2.1 Unit
    ⟨.ok 6, .ok 4000000, .ok 0, .ok (), .ok sampleQuoteResponse, .ok ()⟩
    ⟨"DAI", "0xBUY"⟩ ⟨"USDC", "0xSELL"⟩ ⟨5, 0⟩ "0xME" 6 4000000 rfl rfl

/-- C4 amended: every quote request is a GET to the hard-coded swap-quote
endpoint; in the second revision its query parameters are exactly the buy
and sell token addresses, the base-unit sell amount as a decimal string,
the taker address, the fixed slippage "0.01" and the fixed 8-gwei-in-wei
gas price string; in the first revision they are exactly the first four,
with no slippage or gas-price parameter. -/
theorem quote_params_exact (E : Type) (env : ChainEnv E)
    (bt st : ERC20Token) (bw sw : ERC20TokenContract) (h : HumanAmount)
    (f : String) (d : Nat) (u : String) (p : ZeroExSwapAPIParams)
    (hd : env.decimalsResult = Except.ok d) :
    (Action.quoteGET u p ∈ (performSwapAsyncV1 env bt st h f).fst →
      u = swapQuoteUrl ∧
        p = ⟨bt.address, st.address,
          bigNumberToString (toBaseUnitAmount h d), f, none, none⟩) ∧
    (Action.quoteGET u p ∈ (performSwapAsyncV2 env bw sw h f).fst →
      u = swapQuoteUrl ∧
        p = ⟨bw.address, sw.address,
          bigNumberToString (toBaseUnitAmount h d), f,
          some "0.01", some (bigNumberToString EIGHT_GWEI_IN_WEI)⟩) :=
  ⟨fun hm => v1_quoteGET_mem env bt st h f d u p hd hm,
   fun hm => v2_quoteGET_mem env bw sw h f d u p hd hm⟩

/-- Witness for C4: the quote request of the scenario run of the first
revision carries exactly the four-parameter record. -/
theorem quote_params_exact_witness :
    "https://kovan.api.0x.org/swap/v0/quote" = swapQuoteUrl ∧
      (⟨"0xBUY", "0xSELL", "20500000000000000000", "0xME", none, none⟩ :
          ZeroExSwapAPIParams) =
        ⟨"0xBUY", "0xSELL",
          bigNumberToString (toBaseUnitAmount ⟨205, 1⟩ 18), "0xME",
          none, none⟩ :=
  (quote_params_exact Unit
      ⟨.ok 18, .ok (10 ^ 22), .ok 0, .ok (), .ok sampleQuoteResponse, .ok ()⟩
      ⟨"WETH", "0xBUY"⟩ ⟨"DAI", "0xSELL"⟩ ⟨"0xBUY"⟩ ⟨"0xSELL"⟩ ⟨205, 1⟩ "0xME"
      18 "https://kovan.api.0x.org/swap/v0/quote"
      ⟨"0xBUY", "0xSELL", "20500000000000000000", "0xME", none, none⟩
      rfl).1 (by decide)

/-- C6: an error raised by allowance-setting, quote-fetching or
transaction submission propagates to the caller unchanged, with no retry,
no catch and no compensating action.  If the approval fails, the run ends
at the single approval attempt carrying exactly that error; if the
approval succeeds and the quote fetch fails, the run ends at the single
quote request with that error while the approval stays in the trace (no
rollback); if the submission fails, the run ends at the single submission
attempt with that error. -/
theorem error_propagation_unchanged :
    (∀ (E : Type) (env : ChainEnv E) (bt st : ERC20Token) (h : HumanAmount)
        (f : String) (d b al : Nat) (e : E),
      env.decimalsResult = Except.ok d → env.balanceResult = Except.ok b →
      env.allowanceResult = Except.ok al → ¬ b < toBaseUnitAmount h d →
      al < toBaseUnitAmount h d → env.approveResult = Except.error e →
        performSwapAsyncV1 env bt st h f =
          ([Action.readDecimals, Action.readBalance f,
            Action.readAllowance f zeroExDeployedAddresses.erc20Proxy,
            Action.readDecimals,
            Action.approve zeroExDeployedAddresses.erc20Proxy
              (toBaseUnitAmount ⟨300, 0⟩ d) f],
           SwapResult.error e)) ∧
    (∀ (E : Type) (env : ChainEnv E) (bw sw : ERC20TokenContract)
        (h : HumanAmount) (f : String) (d b al : Nat) (e : E),
      env.decimalsResult = Except.ok d → env.balanceResult = Except.ok b →
      env.allowanceResult = Except.ok al →
      jsStringLt (bigNumberToString b)
        (bigNumberToString (toBaseUnitAmount h d)) = false →
      jsStringLt (bigNumberToString al)
        (bigNumberToString (toBaseUnitAmount h d)) = true →
      env.approveResult = Except.ok () → env.quoteResult = Except.error e →
        performSwapAsyncV2 env bw sw h f =
          ([Action.readDecimals, Action.readBalance f,
            Action.readAllowance f zeroExDeployedAddresses.erc20Proxy,
            Action.readDecimals,
            Action.approve zeroExDeployedAddresses.erc20Proxy
              (toBaseUnitAmount ⟨300, 0⟩ d) f,
            Action.quoteGET swapQuoteUrl
              ⟨bw.address, sw.address,
                bigNumberToString (toBaseUnitAmount h d), f,
                some "0.01", some (bigNumberToString EIGHT_GWEI_IN_WEI)⟩],
           SwapResult.error e)) ∧
    (∀ (E : Type) (env : ChainEnv E) (bw sw : ERC20TokenContract)
        (h : HumanAmount) (f : String) (d b al : Nat)
        (r : GetSwapQuoteResponse) (e : E),
      env.decimalsResult = Except.ok d → env.balanceResult = Except.ok b →
      env.allowanceResult = Except.ok al →
      jsStringLt (bigNumberToString b)
        (bigNumberToString (toBaseUnitAmount h d)) = false →
      jsStringLt (bigNumberToString al)
        (bigNumberToString (toBaseUnitAmount h d)) = false →
      env.quoteResult = Except.ok r → env.sendTxResult = Except.error e →
        performSwapAsyncV2 env bw sw h f =
          ([Action.readDecimals, Action.readBalance f,
            Action.readAllowance f zeroExDeployedAddresses.erc20Proxy,
            Action.quoteGET swapQuoteUrl
              ⟨bw.address, sw.address,
                bigNumberToString (toBaseUnitAmount h d), f,
                some "0.01", some (bigNumberToString EIGHT_GWEI_IN_WEI)⟩,
            Action.logTxData (txDataOfResponse r), Action.logOrders r.orders,
            Action.sendTransaction (txDataOfResponse r)],
           SwapResult.error e)) :=
  ⟨fun E env bt st h f d b al e hd hb hal hp hn hap =>
     v1_approve_error_eq env bt st h f d b al e hd hb hal hp hn hap,
   fun E env bw sw h f d b al e hd hb hal hp hn hap hq =>
     v2_quote_error_eq env bw sw h f d b al e hd hb hal hp hn hap hq,
   fun E env bw sw h f d b al r e hd hb hal hp hn hq hs =>
     v2_send_error_eq env bw sw h f d b al r e hd hb hal hp hn hq hs⟩

/-- Witness for C6: concrete failing runs for each of the three failure
points, with the errors surfacing unchanged. -/
theorem error_propagation_unchanged_witness :
    performSwapAsyncV1
        ⟨.ok 0, .ok 50, .ok 0, .error "approve-down", .ok sampleQuoteResponse, .ok ()⟩
        ⟨"A", "0xA"⟩ ⟨"B", "0xB"⟩ ⟨7, 0⟩ "0xME" =
      ([Action.readDecimals, Action.readBalance "0xME",
        Action.readAllowance "0xME" zeroExDeployedAddresses.erc20Proxy,
        Action.readDecimals,
        Action.approve zeroExDeployedAddresses.erc20Proxy
          (toBaseUnitAmount ⟨300, 0⟩ 0) "0xME"],
       SwapResult.error "approve-down") ∧
    performSwapAsyncV2
        ⟨.ok 0, .ok 50, .ok 0, .ok (), .error "quote-down", .ok ()⟩
        ⟨"0xA"⟩ ⟨"0xB"⟩ ⟨3, 0⟩ "0xME" =
      ([Action.readDecimals, Action.readBalance "0xME",
        Action.readAllowance "0xME" zeroExDeployedAddresses.erc20Proxy,
        Action.readDecimals,
        Action.approve zeroExDeployedAddresses.erc20Proxy
          (toBaseUnitAmount ⟨300, 0⟩ 0) "0xME",
        Action.quoteGET swapQuoteUrl
          ⟨"0xA", "0xB", bigNumberToString (toBaseUnitAmount ⟨3, 0⟩ 0), "0xME",
            some "0.01", some (bigNumberToString EIGHT_GWEI_IN_WEI)⟩],
       SwapResult.error "quote-down") ∧
    performSwapAsyncV2
        ⟨.ok 0, .ok 50, .ok 9, .ok (), .ok sampleQuoteResponse, .error "send-down"⟩
        ⟨"0xA"⟩ ⟨"0xB"⟩ ⟨3, 0⟩ "0xME" =
      ([Action.readDecimals, Action.readBalance "0xME",
        Action.readAllowance "0xME" zeroExDeployedAddresses.erc20Proxy,
        Action.quoteGET swapQuoteUrl
          ⟨"0xA", "0xB", bigNumberToString (toBaseUnitAmount ⟨3, 0⟩ 0), "0xME",
            some "0.01", some (bigNumberToString EIGHT_GWEI_IN_WEI)⟩,
        Action.logTxData (txDataOfResponse sampleQuoteResponse),
        Action.logOrders sampleQuoteResponse.orders,
        Action.sendTransaction (txDataOfResponse sampleQuoteResponse)],
       SwapResult.error "send-down") :=
  ⟨error_propagation_unchanged.1 String
      ⟨.ok 0, .ok 50, .ok 0, .error "approve-down", .ok sampleQuoteResponse, .ok ()⟩
      ⟨"A", "0xA"⟩ ⟨"B", "0xB"⟩ ⟨7, 0⟩ "0xME" 0 50 0 "approve-down"
      rfl rfl rfl (by decide) (by decide) rfl,
   error_propagation_unchanged.2.1 String
      ⟨.ok 0, .ok 50, .ok 0, .ok (), .error "quote-down", .ok ()⟩
      ⟨"0xA"⟩ ⟨"0xB"⟩ ⟨3, 0⟩ "0xME" 0 50 0 "quote-down"
      rfl rfl rfl (by decide) (by decide) rfl rfl,
   error_propagation_unchanged.2.2 String
      ⟨.ok 0, .ok 50, .ok 9, .ok (), .ok sampleQuoteResponse, .error "send-down"⟩
      ⟨"0xA"⟩ ⟨"0xB"⟩ ⟨3, 0⟩ "0xME" 0 50 9 sampleQuoteResponse "send-down"
      rfl rfl rfl (by decide) (by decide) rfl rfl⟩

/-- C8: the orders list of a quote response is never inspected for control
flow: replacing it changes no outcome in either revision, and every
successful quote — including one whose orders list is empty — reaches the
submission step with the transaction descriptor built from the response's
from/to/data/gas/gasPrice/value fields. -/
theorem orders_ignored :
    (∀ (E : Type) (env : ChainEnv E) (bt st : ERC20Token) (h : HumanAmount)
        (f : String) (l : List String),
      (performSwapAsyncV1
          { env with quoteResult :=
              Except.map (fun r => { r with orders := l }) env.quoteResult }
          bt st h f).snd = (performSwapAsyncV1 env bt st h f).snd) ∧
    (∀ (E : Type) (env : ChainEnv E) (bw sw : ERC20TokenContract)
        (h : HumanAmount) (f : String) (l : List String),
      (performSwapAsyncV2
          { env with quoteResult :=
              Except.map (fun r => { r with orders := l }) env.quoteResult }
          bw sw h f).snd = (performSwapAsyncV2 env bw sw h f).snd) ∧
    (∀ (E : Type) (env : ChainEnv E) (bt st : ERC20Token) (h : HumanAmount)
        (f : String) (d b al : Nat) (r : GetSwapQuoteResponse),
      env.decimalsResult = Except.ok d → env.balanceResult = Except.ok b →
      env.allowanceResult = Except.ok al → ¬ b < toBaseUnitAmount h d →
      env.approveResult = Except.ok () → env.quoteResult = Except.ok r →
        Action.sendTransaction (txDataOfResponse r) ∈
            (performSwapAsyncV1 env bt st h f).fst ∧
          (env.sendTxResult = Except.ok () →
            (performSwapAsyncV1 env bt st h f).snd = SwapResult.completed)) ∧
    (∀ (E : Type) (env : ChainEnv E) (bw sw : ERC20TokenContract)
        (h : HumanAmount) (f : String) (d b al : Nat)
        (r : GetSwapQuoteResponse),
      env.decimalsResult = Except.ok d → env.balanceResult = Except.ok b →
      env.allowanceResult = Except.ok al →
      jsStringLt (bigNumberToString b)
        (bigNumberToString (toBaseUnitAmount h d)) = false →
      env.approveResult = Except.ok () → env.quoteResult = Except.ok r →
        Action.sendTransaction (txDataOfResponse r) ∈
            (performSwapAsyncV2 env bw sw h f).fst ∧
          (env.sendTxResult = Except.ok () →
            (performSwapAsyncV2 env bw sw h f).snd = SwapResult.completed)) :=
  ⟨fun E env bt st h f l => v1_snd_orders env bt st h f l,
   fun E env bw sw h f l => v2_snd_orders env bw sw h f l,
   fun E env bt st h f d b al r hd hb hal hp hap hq =>
     v1_send_mem env bt st h f d b al r hd hb hal hp hap hq,
   fun E env bw sw h f d b al r hd hb hal hp hap hq =>
     v2_send_mem env bw sw h f d b al r hd hb hal hp hap hq⟩

/-- Witness for C8: the scenario run, whose quote response has an empty
orders list, still submits the transaction built from the response and
completes. -/
theorem orders_ignored_witness :
    Action.sendTransaction (txDataOfResponse sampleQuoteResponse) ∈
      (performSwapAsyncV1 (E := Unit)
        ⟨.ok 18, .ok (10 ^ 22), .ok 0, .ok (), .ok sampleQuoteResponse, .ok ()⟩
        ⟨"WETH", "0xBUY"⟩ ⟨"DAI", "0xSELL"⟩ ⟨205, 1⟩ "0xME").fst ∧
    (performSwapAsyncV1 (E := Unit)
        ⟨.ok 18, .ok (10 ^ 22), .ok 0, .ok (), .ok sampleQuoteResponse, .ok ()⟩
        ⟨"WETH", "0xBUY"⟩ ⟨"DAI", "0xSELL"⟩ ⟨205, 1⟩ "0xME").snd =
      SwapResult.completed :=
  ⟨(orders_ignored.2.2.1 Unit
      ⟨.ok 18, .ok (10 ^ 22), .ok 0, .ok (), .ok sampleQuoteResponse, .ok ()⟩
      ⟨"WETH", "0xBUY"⟩ ⟨"DAI", "0xSELL"⟩ ⟨205, 1⟩ "0xME" 18 (10 ^ 22) 0
      sampleQuoteResponse rfl rfl rfl (by decide) rfl rfl).1,
   (orders_ignored.2.2.1 Unit
      ⟨.ok 18, .ok (10 ^ 22), .ok 0, .ok (), .ok sampleQuoteResponse, .ok ()⟩
      ⟨"WETH", "0xBUY"⟩ ⟨"DAI", "0xSELL"⟩ ⟨205, 1⟩ "0xME" 18 (10 ^ 22) 0
      sampleQuoteResponse rfl rfl rfl (by decide) rfl rfl).2 rfl⟩


end ZeroExWorkshop
